import Mathlib

/-
Shallow embedding of the pistis name-service and business modules
(src/bin/pistis/name-service/src/lib.rs and src/bin/pistis/business/src/lib.rs).

Machine types: `T::Hash` (H256) is modelled as `Nat` (values standing for
256-bit digests, the all-zero digest being `0`), `AccountId` as `Nat`
(`u64` in the test runtime), block numbers as `Nat`, byte strings as
`List Nat`.  Each dispatchable is a function from the module state (plus
its explicit arguments and the ambient block height where the source reads
`block_number()`) to `Option String × State`: `(none, s)` is `Ok(())` with
the updated storage `s`; `(some e, s)` is `Err(e)` where `s` is the storage
at the moment of the error (the source performs every storage write after
all of its checks, so an error always carries the unmodified input state).
The error strings are the literal `ensure!` messages of the source; the
spec's error taxonomy maps onto them (e.g. `NoOpRejected` is the family of
"... is the same value/account" messages, `Unauthorized` is
"sender is not owner" / "Not authorized", `LimitExceeded` is the overflow
message, `InvalidInput` the length messages).
-/

abbrev AccountId := Nat
abbrev Hash := Nat
abbrev BlockNumber := Nat
abbrev Bytes := List Nat

/-- Dispatch origins: a signed extrinsic or the root origin. -/
inductive Origin where
  | signed (who : AccountId)
  | root
deriving DecidableEq

/-- `system::ensure_signed`: yields the signing account, `none` standing for
the "bad origin" error. -/
def ensureSigned : Origin → Option AccountId
  | .signed who => some who
  | .root => none

/-- Point update of a total map (one storage `insert`). -/
def upd {κ α : Type} [DecidableEq κ] (m : κ → α) (k : κ) (v : α) : κ → α :=
  fun k2 => if k2 = k then v else m k2

theorem upd_same {κ α : Type} [DecidableEq κ] (m : κ → α) (k : κ) (v : α) :
    upd m k v k = v := by
  simp [upd]

/-- Modelled: injective stand-in for `(a, b).using_encoded(Hashing::hash)`
(BlakeTwo256 over the SCALE encoding of the pair); offset by one so that no
derived digest collides with the all-zero default digest. -/
def hashPair (a b : Nat) : Hash := Nat.pair a b + 1

/-- Modelled: injective encoding of a byte string into a `Nat`, used as the
second component when hashing `(hash, bytes)` pairs. -/
def encodeBytes : Bytes → Nat
  | [] => 0
  | b :: bs => Nat.pair b (encodeBytes bs) + 1

/-- `T::Hash::default()`: the all-zero 256-bit digest. -/
def hashDefault : Hash := 0

def errBadOrigin : String := "bad origin"
def errNodeMissing : String := "node does not exist"
def errNotOwner : String := "sender is not owner"
def errSameOwner : String := "owner is the same account"
def errSameTtl : String := "ttl is the same value"
def errSameAddr : String := "addr is the same value"
def errSameName : String := "name is the same value"
def errSameProfile : String := "profile is the same value"
def errSameZone : String := "zone is the same value"
def errNameTooShort : String := "name too short"
def errNameTooLong : String := "name too long"
def errZoneTooLong : String := "zone content too long"
def errBizMissing : String := "Business does not exist"
def errSameValue : String := "Same value"
def errNotWhitelisted : String := "Not in the whitelist"
def errExpired : String := "Expired"
def errSeqTooLong : String := "Sequence ID too long"
def errExtraTooLong : String := "Extra info too long"
def errProductExists : String := "Product info already exists"
def errOverflow : String := "Overflow adding a new product info"
def errIndexCollision : String := "Business product info hash collides???"
def errProductMissing : String := "Product info does not exist"
def errSeqMismatch : String := "Product sequence id not match, should not happen"

namespace NameService

/-- `NodeRecord<AccountId>` (name-service lib.rs:49). -/
structure NodeRecord where
  owner : AccountId
  ttl : Nat
deriving DecidableEq

/-- `Default` instance of `NodeRecord` (derive(Default)). -/
def defaultNodeRecord : NodeRecord := ⟨0, 0⟩

/-- `ResolveRecord<Hash, AccountId>` (name-service lib.rs:58). -/
structure ResolveRecord where
  addr : AccountId
  name : Bytes
  profile : Hash
  zone : Bytes
deriving DecidableEq

/-- `Default` instance of `ResolveRecord` (derive(Default)). -/
def defaultResolveRecord : ResolveRecord := ⟨0, [], 0, []⟩

/-- The externally supplied configuration of the name-service `Trait`:
length bounds plus the `ForceOrigin` predicate. -/
structure Config where
  minLength : Nat
  maxLength : Nat
  maxZoneLength : Nat
  forceOrigin : Origin → Bool

/-- The two storage maps the node/resolve dispatchables touch:
`NodeOf` and `ResolveOf` (name-service lib.rs:111-113). -/
structure State where
  nodeOf : Hash → Option NodeRecord
  resolveOf : Hash → Option ResolveRecord

def emptyState : State := ⟨fun _ => none, fun _ => none⟩

/-- Subnode derivation `(node_hash, label).using_encoded(Hashing::hash)`
(name-service lib.rs:322-325). -/
def subnodeHash (node label : Hash) : Hash := hashPair node label

/-- `do_set_owner` (name-service lib.rs:427-439): create the record if
absent, otherwise transfer, rejecting a no-op transfer. -/
def do_set_owner (s : State) (node : Hash) (owner : AccountId) :
    Option String × State :=
  match s.nodeOf node with
  | some r =>
    if r.owner = owner then (some errSameOwner, s)
    else (none, { s with nodeOf := upd s.nodeOf node (some { r with owner := owner }) })
  | none =>
    (none, { s with nodeOf := upd s.nodeOf node (some { defaultNodeRecord with owner := owner }) })

/-- `set_root_owner` (name-service lib.rs:286-297): `ForceOrigin` or root
only; sets the owner of the node keyed by `T::Hash::default()`. -/
def set_root_owner (cfg : Config) (s : State) (origin : Origin) (owner : AccountId) :
    Option String × State :=
  if cfg.forceOrigin origin = true ∨ origin = Origin.root then
    do_set_owner s hashDefault owner
  else (some errBadOrigin, s)

/-- `set_owner` (name-service lib.rs:302-313), with `only_owner`
(lib.rs:414-421) inlined as its two checks. -/
def set_owner (s : State) (origin : Origin) (node : Hash) (owner : AccountId) :
    Option String × State :=
  match ensureSigned origin with
  | none => (some errBadOrigin, s)
  | some sender =>
    match s.nodeOf node with
    | none => (some errNodeMissing, s)
    | some r =>
      if r.owner ≠ sender then (some errNotOwner, s)
      else if r.owner = owner then (some errSameOwner, s)
      else (none, { s with nodeOf := upd s.nodeOf node (some { r with owner := owner }) })

/-- `set_subnode_owner` (name-service lib.rs:318-330): parent-owner check,
then `do_set_owner` on the derived subnode hash. -/
def set_subnode_owner (s : State) (origin : Origin) (node label : Hash) (owner : AccountId) :
    Option String × State :=
  match ensureSigned origin with
  | none => (some errBadOrigin, s)
  | some sender =>
    match s.nodeOf node with
    | none => (some errNodeMissing, s)
    | some r =>
      if r.owner ≠ sender then (some errNotOwner, s)
      else do_set_owner s (subnodeHash node label) owner

/-- `set_ttl` (name-service lib.rs:334-346). -/
def set_ttl (s : State) (origin : Origin) (node : Hash) (ttl : Nat) :
    Option String × State :=
  match ensureSigned origin with
  | none => (some errBadOrigin, s)
  | some sender =>
    match s.nodeOf node with
    | none => (some errNodeMissing, s)
    | some r =>
      if r.owner ≠ sender then (some errNotOwner, s)
      else if r.ttl = ttl then (some errSameTtl, s)
      else (none, { s with nodeOf := upd s.nodeOf node (some { r with ttl := ttl }) })

/-- `do_set_resolve_addr` (name-service lib.rs:445-457): lazily creates the
resolve record; rejects rewriting the stored addr with itself. -/
def do_set_resolve_addr (s : State) (node : Hash) (addr : AccountId) :
    Option String × State :=
  match s.resolveOf node with
  | some r =>
    if r.addr = addr then (some errSameAddr, s)
    else (none, { s with resolveOf := upd s.resolveOf node (some { r with addr := addr }) })
  | none =>
    (none, { s with resolveOf := upd s.resolveOf node (some { defaultResolveRecord with addr := addr }) })

/-- `do_set_resolve_name` (name-service lib.rs:463-475). -/
def do_set_resolve_name (s : State) (node : Hash) (name : Bytes) :
    Option String × State :=
  match s.resolveOf node with
  | some r =>
    if r.name = name then (some errSameName, s)
    else (none, { s with resolveOf := upd s.resolveOf node (some { r with name := name }) })
  | none =>
    (none, { s with resolveOf := upd s.resolveOf node (some { defaultResolveRecord with name := name }) })

/-- `do_set_resolve_profile` (name-service lib.rs:481-493). -/
def do_set_resolve_profile (s : State) (node : Hash) (profile : Hash) :
    Option String × State :=
  match s.resolveOf node with
  | some r =>
    if r.profile = profile then (some errSameProfile, s)
    else (none, { s with resolveOf := upd s.resolveOf node (some { r with profile := profile }) })
  | none =>
    (none, { s with resolveOf := upd s.resolveOf node (some { defaultResolveRecord with profile := profile }) })

/-- `do_set_resolve_zone` (name-service lib.rs:499-511). -/
def do_set_resolve_zone (s : State) (node : Hash) (zone : Bytes) :
    Option String × State :=
  match s.resolveOf node with
  | some r =>
    if r.zone = zone then (some errSameZone, s)
    else (none, { s with resolveOf := upd s.resolveOf node (some { r with zone := zone }) })
  | none =>
    (none, { s with resolveOf := upd s.resolveOf node (some { defaultResolveRecord with zone := zone }) })

/-- `set_resolve_addr` (name-service lib.rs:350-358). -/
def set_resolve_addr (s : State) (origin : Origin) (node : Hash) (addr : AccountId) :
    Option String × State :=
  match ensureSigned origin with
  | none => (some errBadOrigin, s)
  | some sender =>
    match s.nodeOf node with
    | none => (some errNodeMissing, s)
    | some r =>
      if r.owner ≠ sender then (some errNotOwner, s)
      else do_set_resolve_addr s node addr

/-- `set_resolve_name` (name-service lib.rs:362-373): owner check, then the
`[MinLength, MaxLength]` bound, then the lazy write. -/
def set_resolve_name (cfg : Config) (s : State) (origin : Origin) (node : Hash) (name : Bytes) :
    Option String × State :=
  match ensureSigned origin with
  | none => (some errBadOrigin, s)
  | some sender =>
    match s.nodeOf node with
    | none => (some errNodeMissing, s)
    | some r =>
      if r.owner ≠ sender then (some errNotOwner, s)
      else if name.length < cfg.minLength then (some errNameTooShort, s)
      else if cfg.maxLength < name.length then (some errNameTooLong, s)
      else do_set_resolve_name s node name

/-- `set_resolve_profile` (name-service lib.rs:377-385). -/
def set_resolve_profile (s : State) (origin : Origin) (node : Hash) (profile : Hash) :
    Option String × State :=
  match ensureSigned origin with
  | none => (some errBadOrigin, s)
  | some sender =>
    match s.nodeOf node with
    | none => (some errNodeMissing, s)
    | some r =>
      if r.owner ≠ sender then (some errNotOwner, s)
      else do_set_resolve_profile s node profile

/-- `set_resolve_zone` (name-service lib.rs:389-405). -/
def set_resolve_zone (cfg : Config) (s : State) (origin : Origin) (node : Hash) (zone : Bytes) :
    Option String × State :=
  match ensureSigned origin with
  | none => (some errBadOrigin, s)
  | some sender =>
    match s.nodeOf node with
    | none => (some errNodeMissing, s)
    | some r =>
      if r.owner ≠ sender then (some errNotOwner, s)
      else if cfg.maxZoneLength < zone.length then (some errZoneTooLong, s)
      else do_set_resolve_zone s node zone

/-- `NameServiceResolver::resolve` for `Module` (name-service lib.rs:530-532):
a plain storage read, returning `Option` and never an error. -/
def resolve (s : State) (node : Hash) : Option ResolveRecord :=
  s.resolveOf node

/-- `NameServiceResolver::resolve_addr` for `Module` (lib.rs:535-540). -/
def resolve_addr (s : State) (node : Hash) : Option AccountId :=
  match s.resolveOf node with
  | some record => some record.addr
  | none => none

/-- `NameServiceResolver::resolve_name` for `Module` (lib.rs:543-548). -/
def resolve_name (s : State) (node : Hash) : Option Bytes :=
  match s.resolveOf node with
  | some record => some record.name
  | none => none

/-- `NameServiceResolver::resolve_profile` for `Module` (lib.rs:551-556). -/
def resolve_profile (s : State) (node : Hash) : Option Hash :=
  match s.resolveOf node with
  | some record => some record.profile
  | none => none

/-- `NameServiceResolver::resolve_zone` for `Module` (lib.rs:559-564). -/
def resolve_zone (s : State) (node : Hash) : Option Bytes :=
  match s.resolveOf node with
  | some record => some record.zone
  | none => none

end NameService

namespace Business

/-- `BusinessInfo<NameHash, AccountId, BlockNumber>` (business lib.rs:32). -/
structure BusinessInfo where
  creator : AccountId
  owner : Hash
  name : Bytes
  whitelist : List Hash
  expiration : BlockNumber
deriving DecidableEq

/-- `Default` instance of `BusinessInfo` (derive(Default)). -/
def defaultBusinessInfo : BusinessInfo := ⟨0, 0, [], [], 0⟩

/-- `ProductRecord<Hash, AccountId, BlockNumber>` (business lib.rs:48). -/
structure ProductRecord where
  creator : AccountId
  created_at : BlockNumber
  data_hash : Hash
  extra : Bytes
deriving DecidableEq

/-- `ProductInfo<Hash, AccountId, BlockNumber>` (business lib.rs:61). -/
structure ProductInfo where
  seq_id : Bytes
  infos : List ProductRecord
deriving DecidableEq

/-- `Default` instance of `ProductInfo` (derive(Default)). -/
def defaultProductInfo : ProductInfo := ⟨[], []⟩

/-- The externally supplied configuration of the business `Trait` that the
claims' dispatchables read. -/
structure Config where
  scopeNameHash : Hash
  maxSeqIDLength : Nat
  maxExtraLength : Nat

/-- Storage of the business module (business lib.rs:112-125): the
`Businesses`, `ProductInfos`, `ProductInfoCount` and `BusinessProductInfos`
maps.  Plain-valued substrate maps come with a separate `exists` flag, so
they are modelled as `Option`-valued maps read through `getD default`;
`ProductInfoCount` is only ever read through its defaulting getter, so it
is a total map defaulting to `0`. -/
structure State where
  businesses : Hash → Option BusinessInfo
  productInfos : Hash → Option ProductInfo
  productInfoCount : Hash → Nat
  businessProductInfos : Hash × Nat → Option Hash

/-- `u64` overflow bound for `checked_add` on the per-business counter. -/
def u64Limit : Nat := 2 ^ 64

/-- `validate_authorization` (business lib.rs:386-390): the body is a stub
that unconditionally returns `Ok(())` — the resolver comparison is only a
TODO comment in the source. -/
def validate_authorization (_sender : AccountId) (_hash : Hash) : Option String :=
  none

/-- `resolve_addr` (business lib.rs:456-459): the body is a stub that
unconditionally returns `None`. -/
def resolve_addr (_hash : Hash) : Option AccountId :=
  none

/-- `validate_expiration` (business lib.rs:395-398): the current height must
be strictly below the expiration. -/
def validate_expiration (height expiration : Nat) : Option String :=
  if height < expiration then none else some errExpired

/-- Product hash derivation `(biz_hash, seq_id).using_encoded(Hashing::hash)`
(business lib.rs:318-321 and lib.rs:361-364). -/
def product_hash (biz_hash : Hash) (seq_id : Bytes) : Hash :=
  hashPair biz_hash (encodeBytes seq_id)

/-- `insert_product_info` (business lib.rs:418-432): uniqueness check,
`checked_add` on the per-business counter, defensive ordinal-index check,
then the three writes. -/
def insert_product_info (s : State) (biz_hash info_hash : Hash) (info : ProductInfo) :
    Option String × State :=
  if (s.productInfos info_hash).isSome then (some errProductExists, s)
  else
    let info_count := s.productInfoCount biz_hash
    if info_count + 1 < u64Limit then
      if (s.businessProductInfos (biz_hash, info_count)).isSome then (some errIndexCollision, s)
      else
        (none,
          { s with
            productInfos := upd s.productInfos info_hash (some info),
            businessProductInfos := upd s.businessProductInfos (biz_hash, info_count) (some info_hash),
            productInfoCount := upd s.productInfoCount biz_hash (info_count + 1) })
    else (some errOverflow, s)

/-- `append_product_record` (business lib.rs:439-450): existence check,
defensive sequence-id consistency check, then push. -/
def append_product_record (s : State) (info_hash : Hash) (seq_id : Bytes)
    (record : ProductRecord) : Option String × State :=
  match s.productInfos info_hash with
  | none => (some errProductMissing, s)
  | some info =>
    if info.seq_id ≠ seq_id then (some errSeqMismatch, s)
    else
      let newInfo : ProductInfo := { info with infos := info.infos ++ [record] }
      (none, { s with productInfos := upd s.productInfos info_hash (some newInfo) })

/-- `create_product_info` (business lib.rs:305-337). -/
def create_product_info (cfg : Config) (s : State) (height : Nat) (origin : Origin)
    (name_hash biz_hash : Hash) (seq_id : Bytes) (data_hash : Hash) (extra : Bytes) :
    Option String × State :=
  match ensureSigned origin with
  | none => (some errBadOrigin, s)
  | some sender =>
    match validate_authorization sender name_hash with
    | some e => (some e, s)
    | none =>
      if (s.businesses biz_hash).isSome = false then (some errBizMissing, s)
      else
        let business := (s.businesses biz_hash).getD defaultBusinessInfo
        if name_hash ∈ business.whitelist then
          match validate_expiration height business.expiration with
          | some e => (some e, s)
          | none =>
            if cfg.maxSeqIDLength < seq_id.length then (some errSeqTooLong, s)
            else if cfg.maxExtraLength < extra.length then (some errExtraTooLong, s)
            else
              let info_hash := product_hash biz_hash seq_id
              let record : ProductRecord := ⟨sender, height, data_hash, extra⟩
              insert_product_info s biz_hash info_hash ⟨seq_id, [record]⟩
        else (some errNotWhitelisted, s)

/-- `add_product_record` (business lib.rs:348-375). -/
def add_product_record (cfg : Config) (s : State) (height : Nat) (origin : Origin)
    (name_hash biz_hash : Hash) (seq_id : Bytes) (data_hash : Hash) (extra : Bytes) :
    Option String × State :=
  match ensureSigned origin with
  | none => (some errBadOrigin, s)
  | some sender =>
    match validate_authorization sender name_hash with
    | some e => (some e, s)
    | none =>
      if (s.businesses biz_hash).isSome = false then (some errBizMissing, s)
      else
        let business := (s.businesses biz_hash).getD defaultBusinessInfo
        if name_hash ∈ business.whitelist then
          match validate_expiration height business.expiration with
          | some e => (some e, s)
          | none =>
            if cfg.maxSeqIDLength < seq_id.length then (some errSeqTooLong, s)
            else if cfg.maxExtraLength < extra.length then (some errExtraTooLong, s)
            else
              let info_hash := product_hash biz_hash seq_id
              let record : ProductRecord := ⟨sender, height, data_hash, extra⟩
              append_product_record s info_hash seq_id record
        else (some errNotWhitelisted, s)

/-- `set_business_expiration` (business lib.rs:219-231). -/
def set_business_expiration (cfg : Config) (s : State) (origin : Origin)
    (biz_hash : Hash) (expiration : BlockNumber) : Option String × State :=
  match ensureSigned origin with
  | none => (some errBadOrigin, s)
  | some sender =>
    match validate_authorization sender cfg.scopeNameHash with
    | some e => (some e, s)
    | none =>
      if (s.businesses biz_hash).isSome = false then (some errBizMissing, s)
      else
        let business := (s.businesses biz_hash).getD defaultBusinessInfo
        if business.expiration = expiration then (some errSameValue, s)
        else
          let newBiz : BusinessInfo := { business with expiration := expiration }
          (none, { s with businesses := upd s.businesses biz_hash (some newBiz) })

end Business

/-
Concrete fixtures, taken from the repository's mock runtimes
(name_service_test.rs and business_test.rs): `MinLength = 3`,
`MaxLength = 16`, `MaxZoneLength = 1024`, `MaxSeqIDLength = 64`,
`MaxExtraLength = 1024`, `ForceOrigin = EnsureSignedBy<One>` (account 1).
-/

def testNSConfig : NameService.Config :=
  { minLength := 3, maxLength := 16, maxZoneLength := 1024,
    forceOrigin := fun o => decide (o = Origin.signed 1) }

def testBizConfig : Business.Config :=
  { scopeNameHash := 77, maxSeqIDLength := 64, maxExtraLength := 1024 }

/-- A business whose owner name hash is `50`, whitelisting name hash `9`,
expiring at height `20`. -/
def wBiz : Business.BusinessInfo :=
  { creator := 1, owner := 50, name := [99, 114, 97, 98], whitelist := [9], expiration := 20 }

/-- Business-module state holding `wBiz` under business hash `5` and nothing
else. -/
def wBizState : Business.State :=
  { businesses := upd (fun _ => none) 5 (some wBiz),
    productInfos := fun _ => none,
    productInfoCount := fun _ => 0,
    businessProductInfos := fun _ => none }

/-- One stored product record (creator `4`, height `1`, data hash `3`). -/
def wRecord : Business.ProductRecord :=
  { creator := 4, created_at := 1, data_hash := 3, extra := [] }

/-- A product for business hash `5` with sequence id `[49]` already holding
ten records — ten is exactly the mock runtime's `MaxProductInfoCount`. -/
def wFullProduct : Business.ProductInfo :=
  { seq_id := [49], infos := List.replicate 10 wRecord }

/-- `wBizState` with `wFullProduct` stored under its product hash. -/
def wFullState : Business.State :=
  { wBizState with
    productInfos := upd (fun _ => none) (Business.product_hash 5 [49]) (some wFullProduct) }

/-- Claim C1: the spec requires `validate_authorization(caller, nameHash)`
to succeed exactly when `resolve_addr(nameHash) = Some(caller)` and to fail
`Unauthorized` otherwise.  The shipped bodies are stubs: for every caller
and every name hash, `validate_authorization` succeeds while `resolve_addr`
returns `None` (never `Some(caller)`), so the claimed equivalence fails at
every input — the code contradicts its own doc comment, its commented-out
`ensure!`, and the repository's tests, which expect "Not authorized"
failures (business_test.rs:148,165,194,222,246). -/
theorem validate_authorization_stub_diverges (sender : AccountId) (h : Hash) :
    Business.validate_authorization sender h = none ∧
    Business.resolve_addr h ≠ some sender := by
  exact ⟨rfl, by simp [Business.resolve_addr]⟩

/-- Claim C2: the spec requires `add_product_record` to fail `LimitExceeded`
once a product's info count equals `MaxProductInfoCount`.  No such bound
exists in the module: with the mock runtime's `MaxProductInfoCount = 10`
(business_test.rs:80) and a product already holding ten records, the call
(every other precondition satisfied) succeeds and grows the list to eleven
entries, exceeding the bound the spec says is never exceeded. -/
theorem add_product_record_no_limit :
    (Business.add_product_record testBizConfig wFullState 10 (Origin.signed 4) 9 5 [49] 3 []).1
      = none ∧
    ((Business.add_product_record testBizConfig wFullState 10 (Origin.signed 4) 9 5 [49] 3
        []).2.productInfos (Business.product_hash 5 [49])).map (fun i => i.infos.length)
      = some 11 := by
  exact ⟨rfl, rfl⟩

/-- A successful `do_set_owner` leaves the target node owned by the new
owner. -/
theorem do_set_owner_ok (s : NameService.State) (node : Hash) (owner : AccountId)
    (s2 : NameService.State) (h : NameService.do_set_owner s node owner = (none, s2)) :
    (s2.nodeOf node).map NameService.NodeRecord.owner = some owner := by
  unfold NameService.do_set_owner at h
  split at h
  · split at h
    · injection h with h1 h2
      exact Option.noConfusion h1
    · injection h with h1 h2
      subst h2
      simp [upd_same]
  · injection h with h1 h2
    subst h2
    simp [upd_same]

/-- Claim C3: `set_root_owner` is callable only through the privileged path
(`ForceOrigin` or root — any other origin fails "bad origin" untouched),
and on success it sets the owner of the root node, whose storage key is
`T::Hash::default()`, the all-zero 256-bit digest (modelled as `0`). -/
theorem set_root_owner_spec (cfg : NameService.Config) (s : NameService.State)
    (origin : Origin) (owner : AccountId) :
    hashDefault = 0 ∧
    (¬ (cfg.forceOrigin origin = true ∨ origin = Origin.root) →
      NameService.set_root_owner cfg s origin owner = (some errBadOrigin, s)) ∧
    (∀ s2, NameService.set_root_owner cfg s origin owner = (none, s2) →
      (cfg.forceOrigin origin = true ∨ origin = Origin.root) ∧
      (s2.nodeOf hashDefault).map NameService.NodeRecord.owner = some owner) := by
  refine ⟨rfl, ?_, ?_⟩
  · intro hpriv
    unfold NameService.set_root_owner
    rw [if_neg hpriv]
  · intro s2 hok
    unfold NameService.set_root_owner at hok
    by_cases hpriv : cfg.forceOrigin origin = true ∨ origin = Origin.root
    · rw [if_pos hpriv] at hok
      exact ⟨hpriv, do_set_owner_ok s hashDefault owner s2 hok⟩
    · rw [if_neg hpriv] at hok
      exact absurd (congrArg Prod.fst hok) (by simp)

/-- Witness for C3: in the mock runtime (`ForceOrigin` = signed account 1),
account 2 is rejected with "bad origin", while account 1 sets the root
owner to 3. -/
theorem set_root_owner_spec_witness :
    NameService.set_root_owner testNSConfig NameService.emptyState (Origin.signed 2) 3
      = (some errBadOrigin, NameService.emptyState) ∧
    ((NameService.set_root_owner testNSConfig NameService.emptyState (Origin.signed 1) 3).2.nodeOf
        hashDefault).map NameService.NodeRecord.owner = some 3 := by
  constructor
  · exact (set_root_owner_spec testNSConfig NameService.emptyState (Origin.signed 2) 3).2.1
      (by decide)
  · exact ((set_root_owner_spec testNSConfig NameService.emptyState (Origin.signed 1) 3).2.2 _
      rfl).2

/-- Root owned by account 3 (via the privileged call on the empty state). -/
def c4Base : NameService.State :=
  (NameService.set_root_owner testNSConfig NameService.emptyState (Origin.signed 1) 3).2

/-- `c4Base` after its owner sets only the resolve *name* of the root node
to "eth"; the `addr` field of the freshly created resolve record is never
set and holds the `Default` account. -/
def c4State : NameService.State :=
  (NameService.set_resolve_name testNSConfig c4Base (Origin.signed 3) hashDefault
    [101, 116, 104]).2

/-- Counterexample to C4 as stated: after a record is created by setting
only the name, the `addr` field has never been set, yet `resolve_addr`
returns `Some(AccountId::default())` = `Some 0`, not `None`. -/
theorem resolve_addr_unset_field_counterexample :
    (NameService.set_resolve_name testNSConfig c4Base (Origin.signed 3) hashDefault
        [101, 116, 104]).1 = none ∧
    NameService.resolve_addr c4State hashDefault = some 0 ∧
    ¬ NameService.resolve_addr c4State hashDefault = none := by
  have hv : NameService.resolve_addr c4State hashDefault = some 0 := rfl
  exact ⟨rfl, hv, by simp [hv]⟩

/-- Claim C4 (amended): the read operations never return an error (their
return type is `Option`, a plain storage read); each returns `None` exactly
when the node has no resolution record, and when a record exists each
returns `Some` of the stored field — which is the field type's default
value when the field was never explicitly set. -/
theorem resolver_reads_spec (s : NameService.State) (node : Hash) :
    (s.resolveOf node = none →
      NameService.resolve s node = none ∧
      NameService.resolve_addr s node = none ∧
      NameService.resolve_name s node = none ∧
      NameService.resolve_profile s node = none ∧
      NameService.resolve_zone s node = none) ∧
    (∀ r, s.resolveOf node = some r →
      NameService.resolve s node = some r ∧
      NameService.resolve_addr s node = some r.addr ∧
      NameService.resolve_name s node = some r.name ∧
      NameService.resolve_profile s node = some r.profile ∧
      NameService.resolve_zone s node = some r.zone) := by
  constructor
  · intro hn
    simp [NameService.resolve, NameService.resolve_addr, NameService.resolve_name,
      NameService.resolve_profile, NameService.resolve_zone, hn]
  · intro r hr
    simp [NameService.resolve, NameService.resolve_addr, NameService.resolve_name,
      NameService.resolve_profile, NameService.resolve_zone, hr]

/-- Witness for the amended C4 at the empty state and at `c4State`. -/
theorem resolver_reads_spec_witness :
    NameService.resolve_addr NameService.emptyState 0 = none ∧
    NameService.resolve_zone NameService.emptyState 0 = none ∧
    NameService.resolve_name c4State hashDefault = some [101, 116, 104] := by
  have h := (resolver_reads_spec NameService.emptyState 0).1 rfl
  have h2 := (resolver_reads_spec c4State hashDefault).2 ⟨0, [101, 116, 104], 0, []⟩ rfl
  exact ⟨h.2.1, h.2.2.2.2, h2.2.2.1⟩

/-- Claim C5: for `set_owner`, `set_ttl` and the four resolve-field setters
on a node whose (node / resolve) record exists, submitting the value
currently stored always fails with the corresponding same-value error and
returns the state untouched.  The name and zone cases carry the length
bounds as hypotheses because those checks run before the same-value guard;
any stored value satisfies them in reachable states. -/
theorem noop_update_rejected (cfg : NameService.Config) (s : NameService.State)
    (node : Hash) (r : NameService.NodeRecord) (sender : AccountId)
    (hnode : s.nodeOf node = some r) (hown : r.owner = sender) :
    NameService.set_owner s (Origin.signed sender) node r.owner = (some errSameOwner, s) ∧
    NameService.set_ttl s (Origin.signed sender) node r.ttl = (some errSameTtl, s) ∧
    (∀ rr, s.resolveOf node = some rr →
      NameService.set_resolve_addr s (Origin.signed sender) node rr.addr
        = (some errSameAddr, s) ∧
      (cfg.minLength ≤ rr.name.length → rr.name.length ≤ cfg.maxLength →
        NameService.set_resolve_name cfg s (Origin.signed sender) node rr.name
          = (some errSameName, s)) ∧
      NameService.set_resolve_profile s (Origin.signed sender) node rr.profile
        = (some errSameProfile, s) ∧
      (rr.zone.length ≤ cfg.maxZoneLength →
        NameService.set_resolve_zone cfg s (Origin.signed sender) node rr.zone
          = (some errSameZone, s))) := by
  subst hown
  refine ⟨?_, ?_, ?_⟩
  · simp [NameService.set_owner, ensureSigned, hnode]
  · simp [NameService.set_ttl, ensureSigned, hnode]
  · intro rr hres
    refine ⟨?_, ?_, ?_, ?_⟩
    · simp [NameService.set_resolve_addr, ensureSigned, hnode,
        NameService.do_set_resolve_addr, hres]
    · intro hmin hmax
      have h1 : ¬ rr.name.length < cfg.minLength := by omega
      have h2 : ¬ cfg.maxLength < rr.name.length := by omega
      simp [NameService.set_resolve_name, ensureSigned, hnode, h1, h2,
        NameService.do_set_resolve_name, hres]
    · simp [NameService.set_resolve_profile, ensureSigned, hnode,
        NameService.do_set_resolve_profile, hres]
    · intro hz
      have h1 : ¬ cfg.maxZoneLength < rr.zone.length := by omega
      simp [NameService.set_resolve_zone, ensureSigned, hnode, h1,
        NameService.do_set_resolve_zone, hres]

/-- A node-service state with node 2 owned by 3 (ttl 5) and a full resolve
record for node 2. -/
def wNSState : NameService.State :=
  { nodeOf := upd (fun _ => none) 2 (some ⟨3, 5⟩),
    resolveOf := upd (fun _ => none) 2 (some ⟨9, [101, 116, 104], 4, [123]⟩) }

/-- Witness for C5: resubmitting the stored ttl, addr and name on `wNSState`
fails with the same-value errors and returns the state unchanged. -/
theorem noop_update_rejected_witness :
    NameService.set_ttl wNSState (Origin.signed 3) 2 5 = (some errSameTtl, wNSState) ∧
    NameService.set_resolve_addr wNSState (Origin.signed 3) 2 9 = (some errSameAddr, wNSState) ∧
    NameService.set_resolve_name testNSConfig wNSState (Origin.signed 3) 2 [101, 116, 104]
      = (some errSameName, wNSState) := by
  have h := noop_update_rejected testNSConfig wNSState 2 ⟨3, 5⟩ 3 rfl rfl
  have h2 := h.2.2 ⟨9, [101, 116, 104], 4, [123]⟩ rfl
  exact ⟨h.2.1, h2.1, h2.2.1 (by decide) (by decide)⟩

/-- Claim C6: when the caller owns the parent node, `set_subnode_owner`
derives `subnode = hash(node, label)`, creates the subnode record when
absent and transfers it when present (and not a no-op), and every
successful call leaves `hash(node, label)` owned by the new owner. -/
theorem set_subnode_owner_spec (s : NameService.State) (node label : Hash)
    (owner sender : AccountId) (r : NameService.NodeRecord)
    (hnode : s.nodeOf node = some r) (hown : r.owner = sender) :
    (s.nodeOf (NameService.subnodeHash node label) = none →
      NameService.set_subnode_owner s (Origin.signed sender) node label owner
        = (none, { s with nodeOf := upd s.nodeOf (NameService.subnodeHash node label) (some { NameService.defaultNodeRecord with owner := owner }) })) ∧
    (∀ sub, s.nodeOf (NameService.subnodeHash node label) = some sub → sub.owner ≠ owner →
      NameService.set_subnode_owner s (Origin.signed sender) node label owner
        = (none, { s with nodeOf := upd s.nodeOf (NameService.subnodeHash node label) (some { sub with owner := owner }) })) ∧
    (∀ s2, NameService.set_subnode_owner s (Origin.signed sender) node label owner = (none, s2) →
      (s2.nodeOf (NameService.subnodeHash node label)).map NameService.NodeRecord.owner
        = some owner) := by
  subst hown
  refine ⟨?_, ?_, ?_⟩
  · intro hsub
    simp [NameService.set_subnode_owner, ensureSigned, hnode, NameService.do_set_owner, hsub]
  · intro sub hsub hne
    simp [NameService.set_subnode_owner, ensureSigned, hnode, NameService.do_set_owner, hsub, hne]
  · intro s2 h
    simp only [NameService.set_subnode_owner, ensureSigned, hnode, ne_eq, not_true_eq_false,
      if_false, ite_false] at h
    exact do_set_owner_ok s (NameService.subnodeHash node label) owner s2 h

/-- Parent node 0 owned by 3, subnode 7 absent. -/
def wSubState : NameService.State :=
  { nodeOf := upd (fun _ => none) 0 (some ⟨3, 0⟩), resolveOf := fun _ => none }

/-- Witness for C6: owner 3 of node 0 assigns the fresh subnode
`hash(0, 7)` to account 4, which then owns it. -/
theorem set_subnode_owner_spec_witness :
    ((NameService.set_subnode_owner wSubState (Origin.signed 3) 0 7 4).2.nodeOf
        (NameService.subnodeHash 0 7)).map NameService.NodeRecord.owner = some 4 := by
  exact (set_subnode_owner_spec wSubState 0 7 4 3 ⟨3, 0⟩ rfl rfl).2.2 _ rfl

/-- A successful `insert_product_info` writes the ordinal index entry at the
pre-call count and advances the per-business count by exactly one. -/
theorem insert_product_info_ok (s : Business.State) (biz_hash info_hash : Hash)
    (info : Business.ProductInfo) (s2 : Business.State)
    (h : Business.insert_product_info s biz_hash info_hash info = (none, s2)) :
    s2.businessProductInfos (biz_hash, s.productInfoCount biz_hash) = some info_hash ∧
    s2.productInfoCount biz_hash = s.productInfoCount biz_hash + 1 := by
  simp only [Business.insert_product_info] at h
  by_cases h0 : (s.productInfos info_hash).isSome
  · rw [if_pos h0] at h
    injection h with h1 h2
    exact Option.noConfusion h1
  · rw [if_neg h0] at h
    by_cases hc : s.productInfoCount biz_hash + 1 < Business.u64Limit
    · rw [if_pos hc] at h
      by_cases hx : (s.businessProductInfos (biz_hash, s.productInfoCount biz_hash)).isSome
      · rw [if_pos hx] at h
        injection h with h1 h2
        exact Option.noConfusion h1
      · rw [if_neg hx] at h
        injection h with h1 h2
        subst h2
        exact ⟨upd_same .., upd_same ..⟩
    · rw [if_neg hc] at h
      injection h with h1 h2
      exact Option.noConfusion h1

/-- Claim C7: every successful `create_product_info` for business `biz`
writes the ordinal index entry `(biz, c) → productHash` where `c` is the
pre-call per-business count, and advances the count to `c + 1`; when the
counter cannot advance (`checked_add` overflow at `u64::MAX`) the call
fails with the overflow error and returns the state untouched (the
hypotheses of the overflow part are the other preconditions of the call). -/
theorem create_product_info_index_spec (cfg : Business.Config) (s : Business.State)
    (height : Nat) (sender : AccountId) (name_hash biz_hash : Hash) (seq_id : Bytes)
    (data_hash : Hash) (extra : Bytes) :
    (∀ s2, Business.create_product_info cfg s height (Origin.signed sender) name_hash biz_hash
        seq_id data_hash extra = (none, s2) →
      s2.businessProductInfos (biz_hash, s.productInfoCount biz_hash)
        = some (Business.product_hash biz_hash seq_id) ∧
      s2.productInfoCount biz_hash = s.productInfoCount biz_hash + 1) ∧
    (Business.u64Limit ≤ s.productInfoCount biz_hash + 1 →
      ∀ b, s.businesses biz_hash = some b → name_hash ∈ b.whitelist → height < b.expiration →
        seq_id.length ≤ cfg.maxSeqIDLength → extra.length ≤ cfg.maxExtraLength →
        s.productInfos (Business.product_hash biz_hash seq_id) = none →
        Business.create_product_info cfg s height (Origin.signed sender) name_hash biz_hash
          seq_id data_hash extra = (some errOverflow, s)) := by
  constructor
  · intro s2 h
    simp only [Business.create_product_info, ensureSigned,
      Business.validate_authorization] at h
    by_cases hb : (s.businesses biz_hash).isSome = false
    · rw [if_pos hb] at h
      injection h with h1 h2
      exact Option.noConfusion h1
    · rw [if_neg hb] at h
      by_cases hw : name_hash ∈ ((s.businesses biz_hash).getD Business.defaultBusinessInfo).whitelist
      · rw [if_pos hw] at h
        by_cases hlt : height < ((s.businesses biz_hash).getD Business.defaultBusinessInfo).expiration
        · simp only [Business.validate_expiration, if_pos hlt] at h
          by_cases hs : cfg.maxSeqIDLength < seq_id.length
          · rw [if_pos hs] at h
            injection h with h1 h2
            exact Option.noConfusion h1
          · rw [if_neg hs] at h
            by_cases he : cfg.maxExtraLength < extra.length
            · rw [if_pos he] at h
              injection h with h1 h2
              exact Option.noConfusion h1
            · rw [if_neg he] at h
              exact insert_product_info_ok s biz_hash _ _ s2 h
        · simp only [Business.validate_expiration, if_neg hlt] at h
          injection h with h1 h2
          exact Option.noConfusion h1
      · rw [if_neg hw] at h
        injection h with h1 h2
        exact Option.noConfusion h1
  · intro hov b hb hw hlt hs he hpnone
    simp [Business.create_product_info, ensureSigned, Business.validate_authorization,
      Business.validate_expiration, Business.insert_product_info, hb, hw, hlt, hpnone,
      Nat.not_lt.mpr hs, Nat.not_lt.mpr he, Nat.not_lt.mpr hov]

/-- Witness for C7: creating the first product of `wBizState`'s business
writes index entry `(5, 0)` and advances the count from 0 to 1; the same
call on a state whose counter sits at `u64::MAX` fails with the overflow
error and changes nothing. -/
theorem create_product_info_index_spec_witness :
    ((Business.create_product_info testBizConfig wBizState 10 (Origin.signed 4) 9 5 [49] 3
        []).2.businessProductInfos (5, 0) = some (Business.product_hash 5 [49]) ∧
      (Business.create_product_info testBizConfig wBizState 10 (Origin.signed 4) 9 5 [49] 3
        []).2.productInfoCount 5 = 1) ∧
    Business.create_product_info testBizConfig
        { wBizState with productInfoCount := fun _ => Business.u64Limit - 1 } 10
        (Origin.signed 4) 9 5 [49] 3 []
      = (some errOverflow, { wBizState with productInfoCount := fun _ => Business.u64Limit - 1 }) := by
  constructor
  · exact (create_product_info_index_spec testBizConfig wBizState 10 4 9 5 [49] 3 []).1 _ rfl
  · exact (create_product_info_index_spec testBizConfig
      { wBizState with productInfoCount := fun _ => Business.u64Limit - 1 } 10 4 9 5 [49]
      3 []).2 (by decide) wBiz rfl (by decide) (by decide) (by decide) (by decide) rfl

/-- Claim C8: once a business's stored expiration is at or below some
height, `create_product_info` and `add_product_record` fail "Expired" at
that height and at every later height, as long as the stored business (and
hence its expiration) is unchanged; the whitelist hypothesis puts the call
past the earlier checks so that the failure is exactly "Expired". -/
theorem expired_gated_ops_fail (cfg : Business.Config) (s : Business.State)
    (hgt hgt2 : Nat) (sender : AccountId) (name_hash biz_hash : Hash) (seq_id : Bytes)
    (data_hash : Hash) (extra : Bytes) (b : Business.BusinessInfo)
    (hb : s.businesses biz_hash = some b) (hw : name_hash ∈ b.whitelist)
    (hexp : b.expiration ≤ hgt) (hh : hgt ≤ hgt2) :
    Business.create_product_info cfg s hgt2 (Origin.signed sender) name_hash biz_hash seq_id
      data_hash extra = (some errExpired, s) ∧
    Business.add_product_record cfg s hgt2 (Origin.signed sender) name_hash biz_hash seq_id
      data_hash extra = (some errExpired, s) := by
  have hnl : ¬ hgt2 < b.expiration := Nat.not_lt.mpr (le_trans hexp hh)
  constructor
  · simp [Business.create_product_info, ensureSigned, Business.validate_authorization,
      Business.validate_expiration, hb, hw, hnl]
  · simp [Business.add_product_record, ensureSigned, Business.validate_authorization,
      Business.validate_expiration, hb, hw, hnl]

/-- Witness for C8: `wBiz` expires at height 20; at heights 25 and 30 both
gated operations fail "Expired" and leave the state untouched. -/
theorem expired_gated_ops_fail_witness :
    (Business.create_product_info testBizConfig wBizState 25 (Origin.signed 4) 9 5 [49] 3 []
      = (some errExpired, wBizState) ∧
     Business.add_product_record testBizConfig wBizState 25 (Origin.signed 4) 9 5 [49] 3 []
      = (some errExpired, wBizState)) ∧
    Business.add_product_record testBizConfig wBizState 30 (Origin.signed 4) 9 5 [49] 3 []
      = (some errExpired, wBizState) := by
  constructor
  · exact expired_gated_ops_fail testBizConfig wBizState 25 25 4 9 5 [49] 3 [] wBiz rfl
      (by decide) (by decide) (by decide)
  · exact (expired_gated_ops_fail testBizConfig wBizState 25 30 4 9 5 [49] 3 [] wBiz rfl
      (by decide) (by decide) (by decide)).2

/-- Claim C9: for an existing business (authorization always passes in the
shipped code, see C1), `set_business_expiration` fails "Same value" exactly
when the new expiration equals the stored one, and otherwise succeeds and
stores the new value; no current-height argument even enters the function,
so past values are accepted. -/
theorem set_business_expiration_spec (cfg : Business.Config) (s : Business.State)
    (sender : AccountId) (biz_hash : Hash) (expiration : BlockNumber)
    (b : Business.BusinessInfo) (hb : s.businesses biz_hash = some b) :
    (b.expiration = expiration →
      Business.set_business_expiration cfg s (Origin.signed sender) biz_hash expiration
        = (some errSameValue, s)) ∧
    (b.expiration ≠ expiration →
      Business.set_business_expiration cfg s (Origin.signed sender) biz_hash expiration
        = (none, { s with businesses := upd s.businesses biz_hash (some { b with expiration := expiration }) })) := by
  constructor
  · intro he
    simp [Business.set_business_expiration, ensureSigned, Business.validate_authorization,
      hb, he]
  · intro hne
    simp [Business.set_business_expiration, ensureSigned, Business.validate_authorization,
      hb, hne]

/-- Witness for C9: resubmitting the stored expiration 20 fails "Same
value"; submitting 5 — a value in the past of the heights used elsewhere —
succeeds and stores it. -/
theorem set_business_expiration_spec_witness :
    Business.set_business_expiration testBizConfig wBizState (Origin.signed 2) 5 20
      = (some errSameValue, wBizState) ∧
    Business.set_business_expiration testBizConfig wBizState (Origin.signed 2) 5 5
      = (none, { wBizState with businesses := upd wBizState.businesses 5 (some { wBiz with expiration := 5 }) }) := by
  exact ⟨(set_business_expiration_spec testBizConfig wBizState 2 5 20 wBiz rfl).1 rfl,
    (set_business_expiration_spec testBizConfig wBizState 2 5 5 wBiz rfl).2 (by decide)⟩

/-- Counterexample to C10 as stated: on a node the caller owns with no
resolution record yet (root in `c4Base`), the first `set_resolve_name`
with the default/empty name fails "name too short" under the mock
runtime's `MinLength = 3` — it does not succeed as the claim asserts for
all four setters. -/
theorem first_name_write_counterexample :
    c4Base.resolveOf hashDefault = none ∧
    NameService.set_resolve_name testNSConfig c4Base (Origin.signed 3) hashDefault []
      = (some errNameTooShort, c4Base) :=
  ⟨rfl, rfl⟩

/-- Claim C10 (amended): on an owned node with no resolution record, the
first `set_resolve_addr`/`set_resolve_profile` always succeeds (including
with the field's default value), the first `set_resolve_zone` succeeds for
any zone within the upper bound (including the empty default), and the
first `set_resolve_name` succeeds for any name within
`[MinLength, MaxLength]` — but the empty default name is rejected "name
too short" whenever `MinLength > 0`; the same-value guard never applies to
a first write, which always creates the record. -/
theorem first_resolve_write_spec (cfg : NameService.Config) (s : NameService.State)
    (node : Hash) (sender : AccountId) (r : NameService.NodeRecord)
    (hnode : s.nodeOf node = some r) (hown : r.owner = sender)
    (hres : s.resolveOf node = none) :
    (∀ addr, NameService.set_resolve_addr s (Origin.signed sender) node addr
      = (none, { s with resolveOf := upd s.resolveOf node (some { NameService.defaultResolveRecord with addr := addr }) })) ∧
    (∀ pfl, NameService.set_resolve_profile s (Origin.signed sender) node pfl
      = (none, { s with resolveOf := upd s.resolveOf node (some { NameService.defaultResolveRecord with profile := pfl }) })) ∧
    (∀ zone, zone.length ≤ cfg.maxZoneLength →
      NameService.set_resolve_zone cfg s (Origin.signed sender) node zone
      = (none, { s with resolveOf := upd s.resolveOf node (some { NameService.defaultResolveRecord with zone := zone }) })) ∧
    (∀ nm, cfg.minLength ≤ nm.length → nm.length ≤ cfg.maxLength →
      NameService.set_resolve_name cfg s (Origin.signed sender) node nm
      = (none, { s with resolveOf := upd s.resolveOf node (some { NameService.defaultResolveRecord with name := nm }) })) ∧
    (0 < cfg.minLength →
      NameService.set_resolve_name cfg s (Origin.signed sender) node []
      = (some errNameTooShort, s)) := by
  subst hown
  refine ⟨?_, ?_, ?_, ?_, ?_⟩
  · intro addr
    simp [NameService.set_resolve_addr, ensureSigned, hnode,
      NameService.do_set_resolve_addr, hres]
  · intro pfl
    simp [NameService.set_resolve_profile, ensureSigned, hnode,
      NameService.do_set_resolve_profile, hres]
  · intro zone hz
    simp [NameService.set_resolve_zone, ensureSigned, hnode,
      NameService.do_set_resolve_zone, hres, Nat.not_lt.mpr hz]
  · intro nm hmin hmax
    simp [NameService.set_resolve_name, ensureSigned, hnode,
      NameService.do_set_resolve_name, hres, Nat.not_lt.mpr hmin, Nat.not_lt.mpr hmax]
  · intro hpos
    simp [NameService.set_resolve_name, ensureSigned, hnode, hpos]

/-- Witness for the amended C10: the first write of the default addr `0`
on the root of `c4Base` succeeds and creates the record. -/
theorem first_resolve_write_spec_witness :
    NameService.set_resolve_addr c4Base (Origin.signed 3) hashDefault 0
      = (none, { c4Base with resolveOf := upd c4Base.resolveOf hashDefault (some { NameService.defaultResolveRecord with addr := 0 }) }) := by
  exact (first_resolve_write_spec testNSConfig c4Base hashDefault 3 ⟨3, 0⟩ rfl rfl rfl).1 0

